import Mathlib

/-!
Shallow embedding of the token lifecycle, storage abstraction and
authenticated request pipeline of the my-auth-package repository.

The definitions below are direct translations of the TypeScript source:
  - `src/config/authConfig.ts` (configuration, `configureAuth`)
  - `src/services/authService.ts` (`getStoredTokens`, `storeTokens`,
    `clearTokens`, `shouldRefreshToken`, `isTokenExpired`,
    `createAuthError`, the service `logout` / `refreshToken`)
  - `src/infrastructure/http.ts` (`createAuthHttpClient` response
    interceptor, modelled as `dispatch`)
  - `src/context/AuthContext.tsx` (context `logout`, `refreshToken`,
    the background refresh tick)

JavaScript numbers are modelled as `Int` (no fractional values arise),
nullable values as `Option`, thrown exceptions as `Except` results, and
the mutable module state (configuration plus the four storage backends)
as an explicit `AuthState` value threaded through the functions.
JavaScript truthiness tests on nullable strings and numbers are kept
explicit (`truthyStr`, `truthyNum`): `null`, the empty string and `0`
are falsy.
-/

namespace MyAuth

/-- JS truthiness of a nullable string: null and the empty string are falsy. -/
def truthyStr : Option String → Bool
  | none => false
  | some s => s != ""

/-- JS truthiness of a nullable number: null and 0 are falsy. -/
def truthyNum : Option Int → Bool
  | none => false
  | some v => v != 0

/-- JS `a || b` on a nullable string: falls back when `a` is null or empty. -/
def orStr (o : Option String) (d : String) : String :=
  match o with
  | none => d
  | some s => if s = "" then d else s

/-- JS `a || b` on a nullable number: falls back when `a` is null or 0
(`expiresIn || config.tokenExpiration` in `storeTokens`). -/
def orNum (o : Option Int) (d : Int) : Int :=
  match o with
  | none => d
  | some v => if v = 0 then d else v

/-- Endpoint paths of `AuthConfig.endpoints` (src/config/authConfig.ts). -/
structure Endpoints where
  login : String
  register : String
  logout : String
  refresh : String
  passwordReset : String
  verifyEmail : String
  resendCode : String
deriving DecidableEq, Repr

/-- Cookie attributes of `AuthConfig.cookieOptions`. -/
structure CookieOptions where
  secure : Bool
  sameSite : String
  domain : Option String
  path : Option String
deriving DecidableEq, Repr

/-- Header names of `AuthConfig.token`. -/
structure TokenHeaderOptions where
  headerName : String
  csrfHeaderName : String
deriving DecidableEq, Repr

/-- The `AuthConfig` interface (src/config/authConfig.ts). `tokenStorage`
is kept as a raw string because `configureAuth` validates it at runtime. -/
structure AuthConfig where
  baseUrl : String
  endpoints : Endpoints
  tokenStorage : String
  tokenExpiration : Int
  cookieOptions : CookieOptions
  autoRefresh : Bool
  refreshBeforeExpiration : Int
  token : TokenHeaderOptions
deriving DecidableEq, Repr

/-- The `defaultConfig` constant of src/config/authConfig.ts. -/
def defaultConfig : AuthConfig :=
  { baseUrl := ""
    endpoints :=
      { login := "/auth/login"
        register := "/auth/register"
        logout := "/auth/logout"
        refresh := "/auth/refresh"
        passwordReset := "/auth/password-reset"
        verifyEmail := "/auth/verify-email"
        resendCode := "/auth/resend-code" }
    tokenStorage := "localStorage"
    tokenExpiration := 3600
    cookieOptions := { secure := true, sameSite := "strict", domain := none, path := some "/" }
    autoRefresh := true
    refreshBeforeExpiration := 300
    token := { headerName := "Authorization", csrfHeaderName := "X-CSRF-Token" } }

/-- A `Partial<AuthConfig>` argument to `configureAuth`: every top-level
field optional; the JS object spread replaces present fields wholesale. -/
structure PartialAuthConfig where
  baseUrl : Option String := none
  endpoints : Option Endpoints := none
  tokenStorage : Option String := none
  tokenExpiration : Option Int := none
  cookieOptions : Option CookieOptions := none
  autoRefresh : Option Bool := none
  refreshBeforeExpiration : Option Int := none
  token : Option TokenHeaderOptions := none
deriving DecidableEq, Repr

/-- The list of recognized storage backends checked by `configureAuth`. -/
def storageKinds : List String :=
  ["localStorage", "sessionStorage", "cookie", "memory"]

/-- The validation guard of `configureAuth`:
`config.tokenStorage && !['localStorage', ...].includes(config.tokenStorage)`.
An absent or empty-string `tokenStorage` is falsy and skips validation. -/
def invalidStorage (o : Option String) : Bool :=
  match o with
  | none => false
  | some s => s != "" && !(storageKinds.contains s)

/-- The object spread `{ ...authConfig, ...config }`. -/
def mergeConfig (cfg : AuthConfig) (p : PartialAuthConfig) : AuthConfig :=
  { baseUrl := p.baseUrl.getD cfg.baseUrl
    endpoints := p.endpoints.getD cfg.endpoints
    tokenStorage := p.tokenStorage.getD cfg.tokenStorage
    tokenExpiration := p.tokenExpiration.getD cfg.tokenExpiration
    cookieOptions := p.cookieOptions.getD cfg.cookieOptions
    autoRefresh := p.autoRefresh.getD cfg.autoRefresh
    refreshBeforeExpiration := p.refreshBeforeExpiration.getD cfg.refreshBeforeExpiration
    token := p.token.getD cfg.token }

/-- The JS `endpoint.substring(1)` applied when an endpoint starts with a
slash. -/
def stripLeadingSlash (s : String) : String :=
  if s.startsWith "/" then s.drop 1 else s

/-- The slash clean-up loop at the end of `configureAuth`: when `baseUrl`
ends with a slash, drop one leading slash from every endpoint. -/
def cleanEndpoints (cfg : AuthConfig) : AuthConfig :=
  if cfg.baseUrl.endsWith "/" then
    { cfg with endpoints :=
        { login := stripLeadingSlash cfg.endpoints.login
          register := stripLeadingSlash cfg.endpoints.register
          logout := stripLeadingSlash cfg.endpoints.logout
          refresh := stripLeadingSlash cfg.endpoints.refresh
          passwordReset := stripLeadingSlash cfg.endpoints.passwordReset
          verifyEmail := stripLeadingSlash cfg.endpoints.verifyEmail
          resendCode := stripLeadingSlash cfg.endpoints.resendCode } }
  else cfg

/-- `configureAuth` (src/config/authConfig.ts, lines 47-72) as a state
transformer on the module-level `authConfig` cell. The result pairs the
post-call configuration with the thrown error message, if any; the throw
happens before the assignment, so on error the configuration is the
unchanged input. -/
def configureAuth (p : PartialAuthConfig) (cfg : AuthConfig) :
    AuthConfig × Option String :=
  if invalidStorage p.tokenStorage then
    (cfg, some "Invalid token storage type")
  else
    (cleanEndpoints (mergeConfig cfg p), none)

/-- The four storage backends of the `switch (config.tokenStorage)`
dispatch used by `getStoredTokens` / `storeTokens` / `clearTokens`. -/
inductive Backend where
  | localStorage
  | sessionStorage
  | cookie
  | memory
deriving DecidableEq, Repr

/-- The exact string dispatch of the `switch` statements: any string other
than the four recognized names falls through to the default branch. -/
def backendOf : String → Option Backend
  | "localStorage" => some .localStorage
  | "sessionStorage" => some .sessionStorage
  | "cookie" => some .cookie
  | "memory" => some .memory
  | _ => none

/-- The `auth_token` / `auth_refresh_token` / `auth_token_expiration` /
`auth_user` keys of a web storage area (localStorage or sessionStorage).
The expiration cell physically holds the decimal string written by
`expiresAt.toString()`; it is modelled as the parsed integer, with `none`
covering both an absent key and an empty string (both falsy under the
`getItem(...) ? parseInt(...) : null` read). -/
structure WebStorage where
  authToken : Option String
  authRefreshToken : Option String
  authTokenExpiration : Option Int
  authUser : Option String
deriving DecidableEq, Repr

/-- The three auth cookies. Cookie attribute serialization (path, domain,
secure, samesite) is transport detail outside this model; a cookie is a
name/value cell, with the expiration cookie holding a decimal string
modelled as its integer value. -/
structure CookieJar where
  authToken : Option String
  authRefreshToken : Option String
  authTokenExpiration : Option Int
deriving DecidableEq, Repr

/-- The module-level `memoryStorage` cell of src/config/authConfig.ts. -/
structure MemoryStorage where
  token : Option String
  refreshToken : Option String
  tokenExpiration : Option Int
deriving DecidableEq, Repr

/-- The ambient mutable state visible to the token functions: the active
configuration plus all four storage backends. -/
structure AuthState where
  config : AuthConfig
  localStore : WebStorage
  sessionStore : WebStorage
  cookies : CookieJar
  memory : MemoryStorage
deriving DecidableEq, Repr

/-- The `TokenData` record returned by `getStoredTokens`. -/
structure TokenData where
  token : Option String
  refreshToken : Option String
  expiresAt : Option Int
deriving DecidableEq, Repr

/-- `getStoredTokens` (src/services/authService.ts): reads the three token
cells of the selected backend; an unrecognized backend yields all-null. -/
def getStoredTokens (s : AuthState) : TokenData :=
  match backendOf s.config.tokenStorage with
  | some .localStorage =>
      { token := s.localStore.authToken
        refreshToken := s.localStore.authRefreshToken
        expiresAt := s.localStore.authTokenExpiration }
  | some .sessionStorage =>
      { token := s.sessionStore.authToken
        refreshToken := s.sessionStore.authRefreshToken
        expiresAt := s.sessionStore.authTokenExpiration }
  | some .cookie =>
      { token := s.cookies.authToken
        refreshToken := s.cookies.authRefreshToken
        expiresAt := s.cookies.authTokenExpiration }
  | some .memory =>
      { token := s.memory.token
        refreshToken := s.memory.refreshToken
        expiresAt := s.memory.tokenExpiration }
  | none => { token := none, refreshToken := none, expiresAt := none }

/-- `storeTokens(token, refreshToken?, expiresIn?)`
(src/services/authService.ts): computes
`expiresAt = now + (expiresIn || config.tokenExpiration) * 1000` and
writes the selected backend. The refresh-token cell is written only when
the argument is truthy for the web and cookie backends, while the memory
backend assigns `refreshToken || null` unconditionally. -/
def storeTokens (token : String) (refreshToken : Option String)
    (expiresIn : Option Int) (now : Int) (s : AuthState) : AuthState :=
  let expiresAt : Int := now + orNum expiresIn s.config.tokenExpiration * 1000
  match backendOf s.config.tokenStorage with
  | some .localStorage =>
      { s with localStore :=
          { s.localStore with
              authToken := some token
              authTokenExpiration := some expiresAt
              authRefreshToken :=
                if truthyStr refreshToken then refreshToken
                else s.localStore.authRefreshToken } }
  | some .sessionStorage =>
      { s with sessionStore :=
          { s.sessionStore with
              authToken := some token
              authTokenExpiration := some expiresAt
              authRefreshToken :=
                if truthyStr refreshToken then refreshToken
                else s.sessionStore.authRefreshToken } }
  | some .cookie =>
      { s with cookies :=
          { authToken := some token
            authTokenExpiration := some expiresAt
            authRefreshToken :=
              if truthyStr refreshToken then refreshToken
              else s.cookies.authRefreshToken } }
  | some .memory =>
      { s with memory :=
          { token := some token
            refreshToken := if truthyStr refreshToken then refreshToken else none
            tokenExpiration := some expiresAt } }
  | none => s

/-- `clearTokens` (src/services/authService.ts): removes the three token
cells of the selected backend. -/
def clearTokens (s : AuthState) : AuthState :=
  match backendOf s.config.tokenStorage with
  | some .localStorage =>
      { s with localStore :=
          { s.localStore with
              authToken := none, authRefreshToken := none, authTokenExpiration := none } }
  | some .sessionStorage =>
      { s with sessionStore :=
          { s.sessionStore with
              authToken := none, authRefreshToken := none, authTokenExpiration := none } }
  | some .cookie =>
      { s with cookies := { authToken := none, authRefreshToken := none, authTokenExpiration := none } }
  | some .memory =>
      { s with memory := { token := none, refreshToken := none, tokenExpiration := none } }
  | none => s

/-- `shouldRefreshToken` (src/services/authService.ts, also duplicated in
src/api/authService.ts): false when auto-refresh is disabled or the read
`expiresAt` is falsy (null or 0), otherwise compares the remaining
lifetime against the configured lead time. -/
def shouldRefreshToken (s : AuthState) (now : Int) : Bool :=
  if !s.config.autoRefresh then false
  else
    match (getStoredTokens s).expiresAt with
    | none => false
    | some e =>
        if e = 0 then false
        else decide (e - now < s.config.refreshBeforeExpiration * 1000)

/-- `isTokenExpired` (src/services/authService.ts): true when the read
`expiresAt` is falsy (null or 0), otherwise `now >= expiresAt`. -/
def isTokenExpired (s : AuthState) (now : Int) : Bool :=
  match (getStoredTokens s).expiresAt with
  | none => true
  | some e => if e = 0 then true else decide (now ≥ e)

/-- Modelled from the spec (P2): `shouldProactivelyRefresh` is true iff
auto-refresh is enabled, `expiresAt` is present, and
`expiresAt - now < refreshLeadTimeSeconds * 1000`. Stated from the
spec's words for comparison with `shouldRefreshToken`. -/
def shouldProactivelyRefreshSpec (s : AuthState) (now : Int) : Bool :=
  s.config.autoRefresh &&
    match (getStoredTokens s).expiresAt with
    | none => false
    | some e => decide (e - now < s.config.refreshBeforeExpiration * 1000)

/-- Modelled from the spec (P1): `isExpired` is true iff `expiresAt` is
absent or `now >= expiresAt`. Stated from the spec's words for
comparison with `isTokenExpired`. -/
def isTokenExpiredSpec (s : AuthState) (now : Int) : Bool :=
  match (getStoredTokens s).expiresAt with
  | none => true
  | some e => decide (now ≥ e)

/-! The authenticated request pipeline of
src/infrastructure/http.ts (`createAuthHttpClient`). The response
interceptor is attached to the axios instance, so it also runs for the
`instance.post('/auth/refresh', ...)` call issued from inside the
interceptor itself; `dispatch` models this recursion with explicit fuel.
The `_retry` marker lives on each request's own config, so a retried
request carries `retry = true` while every freshly created refresh POST
starts with `retry = false`. -/

/-- The token payload `response.data.token` of a refresh response:
`{ accessToken, refreshToken?, expiresIn? }`. -/
structure TokenPayload where
  accessToken : String
  refreshToken : Option String
  expiresIn : Option Int
deriving DecidableEq, Repr

/-- The outcome of one network exchange as seen by the interceptor:
a fulfilled response (carrying `data.token` when the caller is the
refresh handler), a rejected response with status 401, or any other
rejection (network error or non-401 status). -/
inductive Resp where
  | ok (token : TokenPayload)
  | unauthorized
  | otherFail
deriving DecidableEq, Repr

/-- The kinds of requests flowing through the client: the caller's
original request, or a POST to the refresh endpoint made by the
interceptor. -/
inductive ReqKind where
  | original
  | refreshEndpoint
deriving DecidableEq, Repr

/-- The errors a request promise can finally reject with:
the 401 rejection itself, any other transport or server rejection, the
`Error('No refresh token available')` thrown by the interceptor, or fuel
exhaustion of the model (never reached in the theorems below). -/
inductive PipeError where
  | http401
  | httpOther
  | noRefreshToken
  | outOfFuel
deriving DecidableEq, Repr

/-- Final settlement of a request promise. -/
inductive PipeOutcome where
  | success (token : TokenPayload)
  | failure (e : PipeError)
deriving DecidableEq, Repr

/-- Counters of observable network traffic: how many times the original
request has been sent and how many calls hit the refresh endpoint. -/
structure Trace where
  origSends : Nat
  refreshCalls : Nat
deriving DecidableEq, Repr

/-- The external server: the response to the n-th send of the original
request and to the n-th call to the refresh endpoint. -/
structure PipeEnv where
  origResp : Nat → Resp
  refreshResp : Nat → Resp

/-- Sends a request of the given kind once and records it in the trace. -/
def respond (env : PipeEnv) (k : ReqKind) (tr : Trace) : Resp × Trace :=
  match k with
  | .original => (env.origResp tr.origSends, { tr with origSends := tr.origSends + 1 })
  | .refreshEndpoint =>
      (env.refreshResp tr.refreshCalls, { tr with refreshCalls := tr.refreshCalls + 1 })

/-- The response interceptor of `createAuthHttpClient`
(src/infrastructure/http.ts, lines 31-64), covering one request and
everything it triggers. On a 401 for a not-yet-retried request it reads
the stored refresh token (falsy means `throw`, caught below with
`clearTokens` and a rejection), posts to the refresh endpoint through the
same instance (hence the recursive `dispatch` with a fresh retry flag),
stores the returned tokens on success and replays the request once with
`retry = true`; a rejection of the refresh POST is caught, tokens are
cleared and the refresh error is propagated. A rejection of the replayed
request is returned as-is: the `return instance(originalRequest)` inside
the `try` block is not awaited, so the catch block does not apply to it. -/
def dispatch (fuel : Nat) (env : PipeEnv) (now : Int) (k : ReqKind)
    (retry : Bool) (st : AuthState) (tr : Trace) :
    PipeOutcome × AuthState × Trace :=
  match fuel with
  | 0 => (.failure .outOfFuel, st, tr)
  | fuel + 1 =>
    let (resp, tr) := respond env k tr
    match resp with
    | .ok tok => (.success tok, st, tr)
    | .otherFail => (.failure .httpOther, st, tr)
    | .unauthorized =>
        if retry then (.failure .http401, st, tr)
        else if !truthyStr (getStoredTokens st).refreshToken then
          (.failure .noRefreshToken, clearTokens st, tr)
        else
          match dispatch fuel env now .refreshEndpoint false st tr with
          | (.success tok, st, tr) =>
              let st := storeTokens tok.accessToken tok.refreshToken tok.expiresIn now st
              dispatch fuel env now k true st tr
          | (.failure e, st, tr) => (.failure e, clearTokens st, tr)

/-- True when a request promise settled successfully. -/
def isSuccess : PipeOutcome → Bool
  | .success _ => true
  | .failure _ => false

/-- Sequential processing of n independent fresh requests against the
same server behaviour, threading the storage state. Each request has its
own send counters (its `origResp` indexing starts at zero). The result
is the final state, the total number of refresh-endpoint calls, and
whether every request succeeded. The code keeps no cross-request
coordination state (the `_retry` marker is per request config and the
only shared data is the token store), so this sequential composition
realizes a legal interleaving of n concurrently failing requests under
the single-threaded cooperative scheduling of the source. -/
def processRequests (env : PipeEnv) (now : Int) :
    Nat → AuthState → AuthState × Nat × Bool
  | 0, st => (st, 0, true)
  | n + 1, st =>
      let (out, st1, tr) := dispatch 3 env now .original false st ⟨0, 0⟩
      let (stf, c, allOk) := processRequests env now n st1
      (stf, tr.refreshCalls + c, isSuccess out && allOk)

/-! The service layer (src/services/authService.ts `createAuthService`)
and the React context layer (src/context/AuthContext.tsx). Network
exchanges are abstracted by the outcome each endpoint call settles with;
the context state gathers the React state hooks. -/

/-- The `AuthError` class: message, machine-readable code, optional
HTTP status. -/
structure AuthError where
  message : String
  code : String
  status : Option Nat
deriving DecidableEq, Repr

/-- A raw rejection value as inspected by `createAuthError`:
whether `axios.isAxiosError` holds, the error message, and the optional
response data and status. -/
structure RawErr where
  isAxiosError : Bool
  message : String
  respMessage : Option String
  respCode : Option String
  respStatus : Option Nat
deriving DecidableEq, Repr

/-- `createAuthError` (src/services/authService.ts): translates a raw
rejection into an `AuthError`, with `||` fallbacks for message and code.
The non-axios branch is modelled for `Error` instances, which is what
every rejection in this model is. -/
def createAuthError (e : RawErr) : AuthError :=
  if e.isAxiosError then
    { message := orStr e.respMessage e.message
      code := orStr e.respCode "request_error"
      status := e.respStatus }
  else
    { message := e.message, code := "unknown_error", status := none }

/-- The service `logout` (src/services/authService.ts, lines 391-399 of
the concatenated config/service file): posts to the logout endpoint,
clears tokens only on success, and maps a rejection through
`createAuthError` without touching the store. The network call is passed
in as its settled result together with the storage state it left behind. -/
def serviceLogout (callResult : Except RawErr Unit) (st : AuthState) :
    Except AuthError Unit × AuthState :=
  match callResult with
  | .ok _ => (.ok (), clearTokens st)
  | .error e => (.error (createAuthError e), st)

/-- The settled behaviour of the refresh endpoint as seen by the service:
a user plus token payload on success, or a raw rejection. -/
inductive RefreshOutcome where
  | ok (user : String) (token : TokenPayload)
  | fail (raw : RawErr)
deriving Repr

/-- The service `refreshToken` of `createAuthService`
(src/services/authService.ts): returns a `refresh_token_missing` error
when the stored refresh token is falsy, otherwise posts to the refresh
endpoint; on success `handleAuthResponse` stores the new tokens, on
rejection a `refresh_error` is returned (with the response status when
the rejection is an axios error) and the store is left untouched. -/
def serviceRefreshToken (env : RefreshOutcome) (now : Int) (st : AuthState) :
    Except AuthError (String × TokenPayload) × AuthState :=
  if !truthyStr (getStoredTokens st).refreshToken then
    (.error { message := "No refresh token available"
              code := "refresh_token_missing", status := none }, st)
  else
    match env with
    | .ok u tok =>
        (.ok (u, tok), storeTokens tok.accessToken tok.refreshToken tok.expiresIn now st)
    | .fail raw =>
        (.error { message := "Token refresh failed"
                  code := "refresh_error"
                  status := if raw.isAxiosError then raw.respStatus else none }, st)

/-- The React state of `AuthProvider` (src/context/AuthContext.tsx)
together with the ambient storage state: current user (an opaque
identity value), last error, loading flag and whether the background
refresh interval is registered. -/
structure CtxState where
  auth : AuthState
  user : Option String
  error : Option AuthError
  isLoading : Bool
  timerActive : Bool
deriving DecidableEq, Repr

/-- The `isAuthenticated` value published by the provider: `!!user`. -/
def ctxIsAuthenticated (cs : CtxState) : Bool :=
  cs.user.isSome

/-- `storeUser` (AuthContext): persists the user blob under `auth_user`
in localStorage (unconditionally localStorage) and sets the user state. -/
def storeUser (u : String) (cs : CtxState) : CtxState :=
  { cs with
      auth := { cs.auth with localStore := { cs.auth.localStore with authUser := some u } }
      user := some u }

/-- `clearUserAndTokens` (AuthContext): clears the token store, removes
the persisted `auth_user` blob, and resets user and error state. -/
def clearUserAndTokens (cs : CtxState) : CtxState :=
  let auth := clearTokens cs.auth
  { cs with
      auth := { auth with localStore := { auth.localStore with authUser := none } }
      user := none
      error := none }

/-- The context `logout` (src/context/AuthContext.tsx, lines 230-252).
The logout endpoint call is abstracted as a function from the storage
state to its settled result and the storage state it leaves (the call
runs through the interceptor pipeline and may itself mutate storage).
On service success: stop the interval, clear user and tokens, fire the
success callback, resolve. On service failure: still stop the interval
and clear user and tokens, record the error, fire the success callback,
and rethrow the error. `isLoading` is reset in the `finally` block. -/
def ctxLogout (call : AuthState → Except RawErr Unit × AuthState)
    (cs : CtxState) : Except AuthError Unit × CtxState :=
  let cs := { cs with isLoading := true, error := none }
  let (raw, auth1) := call cs.auth
  let (res, auth2) := serviceLogout raw auth1
  match res with
  | .ok _ =>
      let cs := clearUserAndTokens { cs with auth := auth2, timerActive := false }
      (.ok (), { cs with isLoading := false })
  | .error e =>
      let cs := clearUserAndTokens { cs with auth := auth2, timerActive := false }
      (.error e, { cs with error := some e, isLoading := false })

/-- The context `refreshToken` (src/context/AuthContext.tsx, lines
169-186): clears the error, calls the service refresh; on success stores
the returned user; on failure clears user and tokens, records the error
and rethrows. `isLoading` is reset in the `finally` block. -/
def ctxRefreshToken (env : RefreshOutcome) (now : Int) (cs : CtxState) :
    Except AuthError Unit × CtxState :=
  let cs := { cs with isLoading := true, error := none }
  let (res, auth1) := serviceRefreshToken env now cs.auth
  match res with
  | .ok (u, _) =>
      (.ok (), { storeUser u { cs with auth := auth1 } with isLoading := false })
  | .error e =>
      let cs := clearUserAndTokens { cs with auth := auth1 }
      (.error e, { cs with error := some e, isLoading := false })

/-- One tick of the background refresh interval registered by
`startRefreshTokenInterval` (src/context/AuthContext.tsx, lines 130-147):
when `shouldRefreshToken()` holds it invokes `refreshToken()`, and the
attached `.catch` only logs the rejection. -/
def backgroundTick (env : RefreshOutcome) (now : Int) (cs : CtxState) : CtxState :=
  if shouldRefreshToken cs.auth now then (ctxRefreshToken env now cs).2
  else cs

/-! Concrete inputs used by the counterexamples and witnesses. -/

/-- An empty web storage area. -/
def emptyWeb : WebStorage := ⟨none, none, none, none⟩

/-- An empty cookie jar. -/
def emptyJar : CookieJar := ⟨none, none, none⟩

/-- The default configuration switched to the memory backend. -/
def cfgMemory : AuthConfig := { defaultConfig with tokenStorage := "memory" }

/-- Memory-backend state holding an access token, a refresh token and an
expiry of 1000000 ms. -/
def st1 : AuthState :=
  { config := cfgMemory, localStore := emptyWeb, sessionStore := emptyWeb
    cookies := emptyJar, memory := ⟨some "T1", some "R1", some 1000000⟩ }

/-- st1 with its memory backend cleared. -/
def stCleared : AuthState := { st1 with memory := ⟨none, none, none⟩ }

/-- The token payload returned by a successful refresh in the scenarios. -/
def tok2 : TokenPayload := ⟨"T2", some "R2", some 3600⟩

/-- A payload-free successful response body for retried requests. -/
def dummyTok : TokenPayload := ⟨"", none, none⟩

/-- Server behaviour: the first send of a request gets a 401, its retry
succeeds, and every refresh-endpoint call succeeds with `tok2`. -/
def env1 : PipeEnv :=
  ⟨fun n => if n = 0 then .unauthorized else .ok dummyTok, fun _ => .ok tok2⟩

/-- The state reached from `st1` after a successful refresh stores `tok2`
at `now = 0`. -/
def stA : AuthState := { st1 with memory := ⟨some "T2", some "R2", some 3600000⟩ }

/-- Server behaviour: every send of the original request gets a 401; the
first refresh-endpoint call also gets a 401 (an invalid refresh token)
and the next one fails with a non-401 error. -/
def env2 : PipeEnv :=
  ⟨fun _ => .unauthorized, fun n => if n = 0 then .unauthorized else .otherFail⟩

/-- Memory-backend state with an access token but no refresh token. -/
def st5 : AuthState := { st1 with memory := ⟨some "T1", none, some 1000000⟩ }

/-- Memory-backend state whose stored expiration cell holds the number 0
(the storage key physically contains the string "0"). -/
def stZero : AuthState := { st1 with memory := ⟨some "T1", some "R1", some 0⟩ }

/-- A localStorage-backend state with a previously stored refresh token. -/
def stLocal : AuthState :=
  { config := defaultConfig, localStore := ⟨some "T0", some "OLD", some 900, none⟩
    sessionStore := emptyWeb, cookies := emptyJar, memory := ⟨none, none, none⟩ }

/-- A failed refresh response: the axios rejection carries status 401. -/
def env4 : RefreshOutcome :=
  .fail ⟨true, "Request failed", some "Invalid refresh token", some "invalid_refresh", some 401⟩

/-- An authenticated provider state over `st1` with the interval active. -/
def cs4 : CtxState := ⟨st1, some "u1", none, false, true⟩

/-- A raw axios rejection used by the logout witness. -/
def rawE : RawErr := ⟨true, "boom", some "Server down", some "server_down", some 500⟩

/-- A logout endpoint call that rejects with `rawE` and leaves storage
untouched. -/
def callE (st : AuthState) : Except RawErr Unit × AuthState := (.error rawE, st)

/-- A partial configuration whose tokenStorage is the empty string: not
one of the four recognized backends, but falsy, so the validation guard
of `configureAuth` does not fire. -/
def pBad : PartialAuthConfig := { tokenStorage := some "" }

/-- A partial configuration selecting an unrecognized non-empty backend. -/
def pIndexed : PartialAuthConfig := { tokenStorage := some "indexedDB" }

/-! Helper lemmas. -/

/-- Reading right after clearing yields all-absent fields, whatever the
configured backend string is. -/
theorem getStoredTokens_clearTokens (s : AuthState) :
    getStoredTokens (clearTokens s) = ⟨none, none, none⟩ := by
  unfold getStoredTokens clearTokens
  cases h : backendOf s.config.tokenStorage with
  | none => simp [h]
  | some b => cases b <;> simp [h]

/-- Overwriting the persisted `auth_user` blob does not change what
`getStoredTokens` reads. -/
theorem getStoredTokens_set_authUser (st : AuthState) (x : Option String) :
    getStoredTokens
        { st with localStore := { st.localStore with authUser := x } } =
      getStoredTokens st := by
  unfold getStoredTokens
  cases h : backendOf st.config.tokenStorage with
  | none => simp [h]
  | some b => cases b <;> simp [h]

/-- The context-level teardown also leaves the token store all-absent. -/
theorem getStoredTokens_clearUserAndTokens (cs : CtxState) :
    getStoredTokens (clearUserAndTokens cs).auth = ⟨none, none, none⟩ := by
  show getStoredTokens
      { clearTokens cs.auth with
          localStore := { (clearTokens cs.auth).localStore with authUser := none } } =
    ⟨none, none, none⟩
  rw [getStoredTokens_set_authUser, getStoredTokens_clearTokens]

/-- A non-zero-or-absent lifetime is used as given by `orNum`. -/
theorem orNum_of_ne_zero (t : Option Int) (d : Int) (h : t ≠ some 0) :
    orNum t d = t.getD d := by
  cases t with
  | none => rfl
  | some v =>
    have hv : v ≠ 0 := by intro hv0; exact h (by rw [hv0])
    simp [orNum, hv]

/-! Claim theorems. -/

/-- C7: for every stored token record, `isTokenExpired` agrees with the
spec predicate "true iff `expiresAt` is absent or `now >= expiresAt`"
at every non-negative clock value; in particular it is true whenever
`expiresAt` is absent. -/
theorem c7_expiry_matches_spec (s : AuthState) (now : Int) (h : 0 ≤ now) :
    isTokenExpired s now = isTokenExpiredSpec s now := by
  unfold isTokenExpired isTokenExpiredSpec
  cases he : (getStoredTokens s).expiresAt with
  | none => rfl
  | some e =>
    by_cases h0 : e = 0
    · subst h0
      simp [h]
    · simp [h0]

/-- C7 witness: the theorem applied at a concrete state and time. -/
theorem c7_witness : isTokenExpired st1 500 = isTokenExpiredSpec st1 500 :=
  c7_expiry_matches_spec st1 500 (by decide)

/-- C6 counterexample: with auto-refresh enabled, lead time 300 s and a
stored expiration cell holding 0 (a present value), the spec predicate
of the claim is true at `now = 1` while `shouldRefreshToken` returns
false — the code's falsiness test treats a stored 0 as absent. -/
theorem c6_counterexample :
    shouldRefreshToken stZero 1 = false ∧
      shouldProactivelyRefreshSpec stZero 1 = true := by
  constructor <;> decide

/-- C6 (amended): `shouldRefreshToken` is true iff auto-refresh is
enabled, the stored `expiresAt` is present and non-zero, and
`expiresAt - now` is below the configured lead time in milliseconds. -/
theorem c6_threshold_characterization (s : AuthState) (now : Int) :
    shouldRefreshToken s now = true ↔
      s.config.autoRefresh = true ∧
        ∃ e, (getStoredTokens s).expiresAt = some e ∧ e ≠ 0 ∧
          e - now < s.config.refreshBeforeExpiration * 1000 := by
  unfold shouldRefreshToken
  cases ha : s.config.autoRefresh with
  | false => simp
  | true =>
    cases he : (getStoredTokens s).expiresAt with
    | none => simp [he]
    | some e =>
      by_cases h0 : e = 0
      · subst h0
        simp [he]
      · simp [he, h0]

/-- C6 witness: the amended characterization applied at a state whose
token expires within the lead window. -/
theorem c6_witness : shouldRefreshToken st1 999000 = true :=
  (c6_threshold_characterization st1 999000).mpr
    ⟨rfl, 1000000, rfl, by decide, by decide⟩

/-- C9 counterexample: a partial configuration carrying the unrecognized
tokenStorage value "" (the empty string is not one of the four backends)
is accepted without error, and the stored configuration changes. -/
theorem c9_counterexample :
    (configureAuth pBad defaultConfig).2 = none ∧
      (configureAuth pBad defaultConfig).1 ≠ defaultConfig := by
  constructor <;> decide

/-- C9 (amended): for every partial configuration whose tokenStorage is a
non-empty string outside the four recognized backends, `configureAuth`
throws and leaves the previously stored configuration — including every
other field supplied in the same call — entirely unchanged. -/
theorem c9_invalid_storage_rejected (p : PartialAuthConfig) (cfg : AuthConfig)
    (s : String) (hp : p.tokenStorage = some s) (hne : s ≠ "")
    (hout : storageKinds.contains s = false) :
    configureAuth p cfg = (cfg, some "Invalid token storage type") := by
  have hm : s ∉ storageKinds := by simpa using hout
  have hcond : invalidStorage p.tokenStorage = true := by
    rw [hp]
    simp [invalidStorage, hne, hm]
  simp [configureAuth, hcond]

/-- C9 witness: the amended theorem applied to a partial configuration
selecting the unrecognized backend "indexedDB". -/
theorem c9_witness :
    configureAuth pIndexed defaultConfig =
      (defaultConfig, some "Invalid token storage type") :=
  c9_invalid_storage_rejected pIndexed defaultConfig "indexedDB" rfl
    (by decide) (by decide)

/-- C10: when `storeTokens` is called without a refresh token, the web
and cookie backends leave the previously stored refresh token in place,
while the memory backend overwrites it with null. -/
theorem c10_absent_refresh_token (s : AuthState) (a : String)
    (t : Option Int) (now : Int) :
    (s.config.tokenStorage = "localStorage" →
        (storeTokens a none t now s).localStore.authRefreshToken =
          s.localStore.authRefreshToken) ∧
      (s.config.tokenStorage = "sessionStorage" →
        (storeTokens a none t now s).sessionStore.authRefreshToken =
          s.sessionStore.authRefreshToken) ∧
      (s.config.tokenStorage = "cookie" →
        (storeTokens a none t now s).cookies.authRefreshToken =
          s.cookies.authRefreshToken) ∧
      (s.config.tokenStorage = "memory" →
        (storeTokens a none t now s).memory.refreshToken = none) := by
  refine ⟨?_, ?_, ?_, ?_⟩ <;> intro h <;> simp [storeTokens, backendOf, h, truthyStr]

/-- C10 witness: the theorem applied on a localStorage-backend state with
a previously stored refresh token and on a memory-backend state. -/
theorem c10_witness :
    (storeTokens "a" none none 0 stLocal).localStore.authRefreshToken = some "OLD" ∧
      (storeTokens "a" none none 0 st1).memory.refreshToken = none :=
  ⟨(c10_absent_refresh_token stLocal "a" none 0).1 rfl,
    (c10_absent_refresh_token st1 "a" none 0).2.2.2 rfl⟩

/-- C8 counterexample: writing with the explicit lifetime 0 does not
store `now + 0 * 1000`; the falsy lifetime falls back to the configured
default (3600 s), so the read-back expiry is `5 + 3600 * 1000`. -/
theorem c8_counterexample :
    getStoredTokens (storeTokens "a" (some "r") (some 0) 5 st1) =
        ⟨some "a", some "r", some 3600005⟩ ∧
      (3600005 : Int) ≠ 5 + 0 * 1000 := by
  constructor <;> decide

/-- C8 (amended): for every recognized backend, a non-empty refresh token
and a lifetime that is not the falsy 0, `write(a, r, t)` followed by
`read()` returns exactly `a`, `r` and `now + t * 1000`, with `t`
defaulting to the configured token lifetime when absent. -/
theorem c8_round_trip (s : AuthState) (a r : String) (t : Option Int)
    (now : Int) (hb : s.config.tokenStorage ∈ storageKinds) (hr : r ≠ "")
    (ht : t ≠ some 0) :
    getStoredTokens (storeTokens a (some r) t now s) =
      ⟨some a, some r, some (now + t.getD s.config.tokenExpiration * 1000)⟩ := by
  have hl := orNum_of_ne_zero t s.config.tokenExpiration ht
  simp only [storageKinds, List.mem_cons, List.not_mem_nil, or_false] at hb
  rcases hb with h | h | h | h <;>
    simp [storeTokens, getStoredTokens, backendOf, h, truthyStr, hr, hl]

/-- C8 witness: the round trip applied on the memory backend with an
explicit 7-second lifetime at `now = 5`. -/
theorem c8_witness :
    getStoredTokens (storeTokens "a" (some "r") (some 7) 5 st1) =
      ⟨some "a", some "r", some (5 + (some (7 : Int)).getD st1.config.tokenExpiration * 1000)⟩ :=
  c8_round_trip st1 "a" "r" (some 7) 5 (by decide) (by decide) (by decide)

/-- C5 counterexample: a 401 with no stored refresh token is rejected
with the interceptor's own `No refresh token available` error (after
clearing the store), not with the original unauthorized failure; the
refresh endpoint is not called and the request is not retried. -/
theorem c5_counterexample :
    dispatch 3 env2 0 .original false st5 ⟨0, 0⟩ =
        (.failure .noRefreshToken, stCleared, ⟨1, 0⟩) ∧
      PipeOutcome.failure .noRefreshToken ≠ .failure .http401 := by
  constructor <;> decide

/-- C5 (amended): whenever the stored refresh token is falsy and the
original request is met with a 401, the pipeline rejects immediately
with the `No refresh token available` error, clears the token store,
and performs no refresh-endpoint call and no retry: the trace gains one
original send and zero refresh calls. -/
theorem c5_no_refresh_token_rejects (fuel : Nat) (env : PipeEnv) (now : Int)
    (st : AuthState) (tr : Trace)
    (hTok : truthyStr (getStoredTokens st).refreshToken = false)
    (hResp : env.origResp tr.origSends = .unauthorized) :
    dispatch (fuel + 1) env now .original false st tr =
      (.failure .noRefreshToken, clearTokens st,
        ⟨tr.origSends + 1, tr.refreshCalls⟩) := by
  simp [dispatch, respond, hResp, hTok]

/-- C5 witness: the amended theorem applied at the concrete
no-refresh-token state. -/
theorem c5_witness :
    dispatch 3 env2 0 .original false st5 ⟨0, 0⟩ =
      (.failure .noRefreshToken, clearTokens st5, ⟨1, 0⟩) :=
  c5_no_refresh_token_rejects 2 env2 0 st5 ⟨0, 0⟩ (by decide) rfl

/-- C2: with a request that receives a 401 and a refresh endpoint that
itself answers the refresh call with a 401 (an invalid refresh token,
the very storm scenario the guarantee is meant to bound), the refresh
POST re-enters the response interceptor with a fresh `_retry` marker and
issues a second refresh-endpoint call: the trace records two refresh
calls for one original request, contradicting the at-most-one bound. -/
theorem c2_nested_refresh_storm :
    dispatch 4 env2 0 .original false st1 ⟨0, 0⟩ =
      (.failure .httpOther, stCleared, ⟨1, 2⟩) := by
  decide

/-- Single-request step from `st1` under `env1`: one 401, one successful
refresh which stores `tok2`, one successful retry. -/
theorem dispatch_env1_st1 :
    dispatch 3 env1 0 .original false st1 ⟨0, 0⟩ =
      (.success dummyTok, stA, ⟨2, 1⟩) := by
  decide

/-- The state `stA` is a fixpoint of the same step: the refresh stores
the same tokens again. -/
theorem dispatch_env1_stA :
    dispatch 3 env1 0 .original false stA ⟨0, 0⟩ =
      (.success dummyTok, stA, ⟨2, 1⟩) := by
  decide

/-- Processing any number of fresh requests from `stA` yields one
refresh call per request, all succeeding. -/
theorem processRequests_stA (n : Nat) :
    processRequests env1 0 n stA = (stA, n, true) := by
  induction n with
  | zero => rfl
  | succ m ih =>
      have h1 : (1 : Nat) + m = m + 1 := Nat.add_comm 1 m
      simp [processRequests, dispatch_env1_stA, ih, isSuccess, h1]

/-- C1 (amended): N requests that each receive a 401 while a refresh
token is stored trigger one refresh-endpoint call per request — N calls
in total, not a single shared one — and, the refreshes succeeding, every
request succeeds after its own refresh. The interceptor keeps no
cross-request coalescing state, so the sequential composition realizes a
legal interleaving of the N concurrent handlers. -/
theorem c1_per_request_refresh (n : Nat) :
    (processRequests env1 0 n st1).2 = (n, true) := by
  cases n with
  | zero => rfl
  | succ m =>
      have h1 : (1 : Nat) + m = m + 1 := Nat.add_comm 1 m
      simp [processRequests, dispatch_env1_st1, processRequests_stA, isSuccess, h1]

/-- C1 counterexample: two concurrent requests that each receive a 401
while a refresh token is stored produce two refresh-endpoint calls, not
exactly one. -/
theorem c1_counterexample :
    (processRequests env1 0 2 st1).2 = (2, true) ∧ (2 : Nat) ≠ 1 := by
  constructor <;> decide

/-- The context teardown always nulls the user state. -/
theorem clearUserAndTokens_user (cs : CtxState) :
    (clearUserAndTokens cs).user = none := rfl

/-- C3: whatever the logout endpoint call does — succeed or reject, with
any effect on storage — `logout()` leaves the user null, the published
`isAuthenticated` false and the token store fully cleared; and when the
call rejected, the returned promise rejects with the translated
underlying error. -/
theorem c3_logout_failsafe (call : AuthState → Except RawErr Unit × AuthState)
    (cs : CtxState) :
    (ctxLogout call cs).2.user = none ∧
      ctxIsAuthenticated (ctxLogout call cs).2 = false ∧
      getStoredTokens (ctxLogout call cs).2.auth = ⟨none, none, none⟩ ∧
      ∀ e, (call cs.auth).1 = .error e →
        (ctxLogout call cs).1 = .error (createAuthError e) := by
  rcases hc : call cs.auth with ⟨raw, auth1⟩
  cases raw with
  | ok u =>
      refine ⟨?_, ?_, ?_, ?_⟩
      · simp [ctxLogout, serviceLogout, hc, clearUserAndTokens_user]
      · simp [ctxLogout, serviceLogout, hc, ctxIsAuthenticated, clearUserAndTokens_user]
      · simp [ctxLogout, serviceLogout, hc, getStoredTokens_clearUserAndTokens]
      · intro e he
        simp at he
  | error e0 =>
      refine ⟨?_, ?_, ?_, ?_⟩
      · simp [ctxLogout, serviceLogout, hc, clearUserAndTokens_user]
      · simp [ctxLogout, serviceLogout, hc, ctxIsAuthenticated, clearUserAndTokens_user]
      · simp [ctxLogout, serviceLogout, hc, getStoredTokens_clearUserAndTokens]
      · intro e he
        simp at he
        subst he
        simp [ctxLogout, serviceLogout, hc]

/-- C3 witness: the theorem applied to a rejecting logout endpoint over a
concrete authenticated state. -/
theorem c3_witness :
    (ctxLogout callE cs4).2.user = none ∧
      getStoredTokens (ctxLogout callE cs4).2.auth = ⟨none, none, none⟩ ∧
      (ctxLogout callE cs4).1 = .error (createAuthError rawE) :=
  ⟨(c3_logout_failsafe callE cs4).1,
    (c3_logout_failsafe callE cs4).2.2.1,
    (c3_logout_failsafe callE cs4).2.2.2 rawE rfl⟩

/-- C4: a background tick whose refresh fails tears the session down.
Starting Authenticated (user set, tokens stored, expiry inside the lead
window), the failing scheduled refresh leaves the user null and the
token store cleared, with the error recorded — the interval's own catch
only logs, but the shared `refreshToken()` has already called
`clearUserAndTokens()`. -/
theorem c4_background_refresh_teardown :
    cs4.user = some "u1" ∧
      shouldRefreshToken cs4.auth 999000 = true ∧
      (backgroundTick env4 999000 cs4).user = none ∧
      getStoredTokens (backgroundTick env4 999000 cs4).auth = ⟨none, none, none⟩ ∧
      (backgroundTick env4 999000 cs4).error =
        some ⟨"Token refresh failed", "refresh_error", some 401⟩ := by
  refine ⟨rfl, by decide, by decide, by decide, by decide⟩

end MyAuth
